import Mathlib

/-!
Verification of the logistics-agent sample (mock-tool variant and
database-backed variant) against its specification.

The Python sources are shallowly embedded:

* Python dictionaries become association lists (`PyDict`); a subscript
  `d[k]`, which can raise `KeyError`, becomes `dictGet` returning
  `Except PyErr`, while the total method `d.get(k)` becomes `dictLookup`
  returning `Option`.
* `try/except` bodies become `Except PyErr`-valued functions; the
  surrounding handler is a wrapper that maps the error branch to the
  error string the Python handler returns.
* Module-level mutable globals of the database-backed variant
  (`_db_config`, `_db_credentials`, `_db_connection`) become an explicit
  `AgentState` threaded through the operations.
* Outcomes of the external world (SSM parameter store, Secrets Manager,
  connection establishment, query execution) are fixed by an explicit
  environment record; the SQL queries' relational meaning (WHERE filter,
  ORDER BY eta DESC NULLS LAST) is embedded as list filtering and sorting
  over the environment's tables.
-/

/-- A Python exception, reduced to its class name and its `str(e)` text. -/
structure PyErr where
  name : String
  msg : String
deriving DecidableEq, Repr

/-- A Python dict with string keys and string values, in insertion order. -/
abbrev PyDict := List (String × String)

/-- `d.get(k)`: total lookup, `None` when the key is absent. -/
def dictLookup (d : PyDict) (k : String) : Option String :=
  (d.find? (fun p => p.1 == k)).map (fun p => p.2)

/-- `d[k]`: subscript, raising `KeyError` when the key is absent. -/
def dictGet (d : PyDict) (k : String) : Except PyErr String :=
  match dictLookup d k with
  | some v => Except.ok v
  | none => Except.error ⟨"KeyError", k⟩

/-- A nested dict of dicts (the mock shipment directory), insertion order. -/
abbrev PyDirectory := List (String × PyDict)

/-- `data[k]` on the outer dict. -/
def outerGet (data : PyDirectory) (k : String) : Except PyErr PyDict :=
  match data.find? (fun p => p.1 == k) with
  | some p => Except.ok p.2
  | none => Except.error ⟨"KeyError", k⟩

/-- `k in data` on the outer dict. -/
def outerMem (data : PyDirectory) (k : String) : Bool :=
  (data.find? (fun p => p.1 == k)).isSome

/-- Rendering of `json.dumps` for one flat string-valued dict.  The exact
text is irrelevant to every claim; only which value is rendered matters. -/
def jsonDumpDict (d : PyDict) : String :=
  "\x7b" ++ String.intercalate ", "
    (d.map (fun p => "\"" ++ p.1 ++ "\": \"" ++ p.2 ++ "\"")) ++ "\x7d"

/-- Rendering of `json.dumps` for a list of dicts. -/
def jsonDumpList (ds : List PyDict) : String :=
  "[" ++ String.intercalate ", " (ds.map jsonDumpDict) ++ "]"

/-- The `MOCK_SHIPMENTS` fixture of `agent-mocked-tools/agent.py`,
lines 17-45.  The three `occurred_at` values are computed from
`datetime.now()` at import time, so they are parameters `t1 t2 t3` here;
every other field is the literal from the source. -/
def MOCK_SHIPMENTS (t1 t2 t3 : String) : PyDirectory :=
  [ ("SHIP-REF-1001",
      [ ("reference_no", "SHIP-REF-1001"),
        ("status", "IN_TRANSIT"),
        ("event", "DEPARTED"),
        ("current_location", "Port of Los Angeles"),
        ("unlocode", "USLAX"),
        ("occurred_at", t1),
        ("details", "Container loaded on vessel MSC MAYA") ]),
    ("SHIP-REF-1002",
      [ ("reference_no", "SHIP-REF-1002"),
        ("status", "DELIVERED"),
        ("event", "DELIVERED"),
        ("current_location", "Shanghai Distribution Center"),
        ("unlocode", "CNSHA"),
        ("occurred_at", t2),
        ("details", "Delivered to consignee") ]),
    ("SHIP-REF-1003",
      [ ("reference_no", "SHIP-REF-1003"),
        ("status", "AT_RISK"),
        ("event", "DELAYED"),
        ("current_location", "Port of Singapore"),
        ("unlocode", "SGSIN"),
        ("occurred_at", t3),
        ("details", "Vessel delayed due to weather conditions") ]) ]

/-- Body of the `try` block of the mock `get_shipment_status`
(`agent-mocked-tools/agent.py` lines 58-62): membership test, subscript,
`json.dumps`, or the not-found string. -/
def getShipmentStatusMockBody (data : PyDirectory) (ref : String) :
    Except PyErr String :=
  if outerMem data ref then
    match outerGet data ref with
    | Except.ok sh => Except.ok (jsonDumpDict sh)
    | Except.error e => Except.error e
  else
    Except.ok ("Shipment " ++ ref ++ " not found")

/-- The mock `get_shipment_status` tool: the `try` body with its
`except` handler (lines 64-66) stringifying any exception. -/
def getShipmentStatusMock (data : PyDirectory) (ref : String) : String :=
  match getShipmentStatusMockBody data ref with
  | Except.ok s => s
  | Except.error e => "Error retrieving shipment status: " ++ e.msg

/-- One iteration's appended record in the mock `find_delayed_shipments`
loop (lines 82-89): a dict literal whose values come from subscripts on
the shipment dict, each of which can raise `KeyError`. -/
def buildDelayedEntry (ref : String) (sh : PyDict) : Except PyErr PyDict :=
  match dictGet sh "status" with
  | Except.error e => Except.error e
  | Except.ok status =>
    match dictGet sh "current_location" with
    | Except.error e => Except.error e
    | Except.ok loc =>
      match dictGet sh "event" with
      | Except.error e => Except.error e
      | Except.ok ev =>
        match dictGet sh "occurred_at" with
        | Except.error e => Except.error e
        | Except.ok occ =>
          match dictGet sh "details" with
          | Except.error e => Except.error e
          | Except.ok det =>
            Except.ok
              [ ("reference_no", ref),
                ("status", status),
                ("current_location", loc),
                ("event", ev),
                ("occurred_at", occ),
                ("details", det) ]

/-- The filtering loop of the mock `find_delayed_shipments`
(lines 79-89): keep entries whose `.get("status")` equals `"AT_RISK"`. -/
def scanDelayedBody : PyDirectory → Except PyErr (List PyDict)
  | [] => Except.ok []
  | (ref, sh) :: rest =>
    if dictLookup sh "status" = some "AT_RISK" then
      match buildDelayedEntry ref sh with
      | Except.error e => Except.error e
      | Except.ok entry =>
        match scanDelayedBody rest with
        | Except.error e => Except.error e
        | Except.ok tail => Except.ok (entry :: tail)
    else
      scanDelayedBody rest

/-- The mock `find_delayed_shipments` tool (lines 69-98): scan, then the
empty-result sentinel or `json.dumps`, with the `except` handler
stringifying any exception. -/
def findDelayedShipmentsMock (data : PyDirectory) : String :=
  match scanDelayedBody data with
  | Except.ok delayed =>
    if delayed.isEmpty then "No delayed shipments found"
    else jsonDumpList delayed
  | Except.error e => "Error finding delayed shipments: " ++ e.msg

/-- The single record the mock scan keeps on the fixture: the
`SHIP-REF-1003` projection built by the loop body. -/
def delayedEntry1003 (t3 : String) : PyDict :=
  [ ("reference_no", "SHIP-REF-1003"),
    ("status", "AT_RISK"),
    ("current_location", "Port of Singapore"),
    ("event", "DELAYED"),
    ("occurred_at", t3),
    ("details", "Vessel delayed due to weather conditions") ]

example : ∀ t1 t2 t3 : String,
    scanDelayedBody (MOCK_SHIPMENTS t1 t2 t3) =
      Except.ok [delayedEntry1003 t3] := by
  intro t1 t2 t3
  rfl

/-- The dict `_db_config` built from the SSM parameters
(`agent/agent.py` lines 44-48). -/
structure DBConfig where
  endpoint : String
  database : String
  secret_arn : String
deriving DecidableEq, Repr

/-- The username/password pair parsed from the Secrets Manager secret
(line 53). -/
structure Credentials where
  username : String
  password : String
deriving DecidableEq, Repr

/-- The module-level globals of `agent/agent.py` (lines 21-23):
`_db_config`, `_db_credentials`, `_db_connection`.  A connection handle
is abstracted to a `Nat` identifier. -/
structure AgentState where
  db_config : Option DBConfig
  db_credentials : Option Credentials
  db_connection : Option Nat
deriving DecidableEq, Repr

/-- The all-`None` initial state of the module globals. -/
def initState : AgentState := ⟨none, none, none⟩

/-- One row of the joined source read by `get_shipment_status`
(`logistics.shipments` joined with the latest-event view and locations,
lines 99-112).  The join itself is external to this repository, so the
joined result is taken as the row source; timestamps are `Int` epochs. -/
structure ShipmentRow where
  reference_no : String
  status : String
  event : String
  current_location : Option String
  unlocode : Option String
  occurred_at : Int
  details : String
deriving DecidableEq, Repr

/-- One row of `logistics.mv_eta_risk` as selected by
`find_delayed_shipments` (lines 136-145); `eta` and `eta_final` are
nullable timestamps. -/
structure RiskRow where
  reference_no : String
  eta : Option Int
  eta_final : Option Int
  eta_status : String
deriving DecidableEq, Repr

/-- Outcomes of the external world for one operation of the
database-backed variant: the SSM parameter load (including the dict
construction from the response), the Secrets Manager read plus JSON
parse, connection establishment, an optional fault injected into query
execution, and the two backing tables. -/
structure DBEnv where
  ssmParams : Except PyErr DBConfig
  secret : Except PyErr Credentials
  connect : Except PyErr Nat
  queryFault : Option PyErr
  shipments : List ShipmentRow
  risk : List RiskRow

/-- `_load_db_config` (`agent/agent.py` lines 25-59).  Faithful to the
source order: the cached-path early return hands back `_db_credentials`
even when it is still `None`; on the uncached path `_db_config` is
assigned BEFORE the Secrets Manager read, so a secret failure leaves the
parameter configuration cached. -/
def loadDbConfig (env : DBEnv) (s : AgentState) :
    Except PyErr (DBConfig × Option Credentials) × AgentState :=
  match s.db_config with
  | some cfg => (Except.ok (cfg, s.db_credentials), s)
  | none =>
    match env.ssmParams with
    | Except.error e => (Except.error e, s)
    | Except.ok cfg =>
      let s1 : AgentState := { s with db_config := some cfg }
      match env.secret with
      | Except.error e => (Except.error e, s1)
      | Except.ok creds =>
        (Except.ok (cfg, some creds),
         { s1 with db_credentials := some creds })

/-- `get_db_connection` (lines 61-83): return the cached handle when
present; otherwise load the configuration and open a connection,
caching the handle only on success.  `credentials['username']` on a
`None` credentials value raises `TypeError`, as in Python. -/
def getDbConnection (env : DBEnv) (s : AgentState) :
    Except PyErr Nat × AgentState :=
  match s.db_connection with
  | some c => (Except.ok c, s)
  | none =>
    match loadDbConfig env s with
    | (Except.error e, s1) => (Except.error e, s1)
    | (Except.ok (_, none), s1) =>
      (Except.error ⟨"TypeError", "NoneType object is not subscriptable"⟩, s1)
    | (Except.ok (_, some _), s1) =>
      match env.connect with
      | Except.error e => (Except.error e, s1)
      | Except.ok c => (Except.ok c, { s1 with db_connection := some c })

/-- The rows the status query yields: `WHERE s.reference_no = :reference_no`
over the joined source, or the injected query fault. -/
def runStatusQuery (env : DBEnv) (ref : String) :
    Except PyErr (List ShipmentRow) :=
  match env.queryFault with
  | some e => Except.error e
  | none => Except.ok (env.shipments.filter (fun r => r.reference_no == ref))

/-- The comparison realized by `ORDER BY r.eta DESC NULLS LAST`: a row
comes no later than another when its `eta` is at least as large, rows
with an `eta` come before rows without one, and two `NULL` rows are
interchangeable. -/
def riskLeB (a b : RiskRow) : Bool :=
  match a.eta, b.eta with
  | some x, some y => y ≤ x
  | some _, none => true
  | none, some _ => false
  | none, none => true

/-- `riskLeB` as a relation, for `List.Sorted`. -/
def riskOrder (a b : RiskRow) : Prop := riskLeB a b = true

instance : DecidableRel riskOrder := fun a b =>
  inferInstanceAs (Decidable (riskLeB a b = true))

instance : IsTotal RiskRow riskOrder where
  total a b := by
    unfold riskOrder riskLeB
    rcases a.eta with _ | x <;> rcases b.eta with _ | y <;> simp
    exact Int.le_total y x

instance : IsTrans RiskRow riskOrder where
  trans a b c hab hbc := by
    unfold riskOrder riskLeB at *
    rcases ha : a.eta with _ | x <;> rcases hb : b.eta with _ | y <;>
      rcases hc : c.eta with _ | z <;> simp [ha, hb, hc] at *
    all_goals omega

/-- The row sequence produced by the risk query: the `AT_RISK` filter
followed by the `ORDER BY eta DESC NULLS LAST` sort. -/
def riskQueryRows (env : DBEnv) : List RiskRow :=
  List.insertionSort riskOrder
    (env.risk.filter (fun r => r.eta_status == "AT_RISK"))

/-- The risk query as executed on the connection: the sorted rows, or
the injected query fault. -/
def runRiskQuery (env : DBEnv) : Except PyErr (List RiskRow) :=
  match env.queryFault with
  | some e => Except.error e
  | none => Except.ok (riskQueryRows env)

/-- Rendering of `json.dumps(result[0], default=str, indent=2)` for a
status row; the exact text is irrelevant to every claim. -/
def jsonDumpShipmentRow (r : ShipmentRow) : String :=
  jsonDumpDict
    [ ("reference_no", r.reference_no),
      ("status", r.status),
      ("event", r.event),
      ("current_location", r.current_location.getD "null"),
      ("unlocode", r.unlocode.getD "null"),
      ("occurred_at", toString r.occurred_at),
      ("details", r.details) ]

/-- Rendering of `json.dumps(results, default=str, indent=2)` for the
risk rows. -/
def jsonDumpRiskRows (rs : List RiskRow) : String :=
  jsonDumpList (rs.map (fun r =>
    [ ("reference_no", r.reference_no),
      ("eta", (r.eta.map toString).getD "null"),
      ("eta_final", (r.eta_final.map toString).getD "null"),
      ("eta_status", r.eta_status) ]))

/-- Body of the `try` block of the database-backed `get_shipment_status`
(lines 96-119): obtain the connection, run the query, and return the
first row's JSON or the not-found string. -/
def getShipmentStatusDBBody (env : DBEnv) (s : AgentState) (ref : String) :
    Except PyErr String × AgentState :=
  match getDbConnection env s with
  | (Except.error e, s1) => (Except.error e, s1)
  | (Except.ok _, s1) =>
    match runStatusQuery env ref with
    | Except.error e => (Except.error e, s1)
    | Except.ok [] => (Except.ok ("Shipment " ++ ref ++ " not found"), s1)
    | Except.ok (r :: _) => (Except.ok (jsonDumpShipmentRow r), s1)

/-- The database-backed `get_shipment_status` tool (lines 85-123): the
`try` body with its handler stringifying any exception. -/
def getShipmentStatusDB (env : DBEnv) (s : AgentState) (ref : String) :
    String × AgentState :=
  match getShipmentStatusDBBody env s ref with
  | (Except.ok out, s1) => (out, s1)
  | (Except.error e, s1) =>
    ("Error retrieving shipment status: " ++ e.msg, s1)

/-- Body of the `try` block of the database-backed
`find_delayed_shipments` (lines 133-152): obtain the connection, run the
risk query, and return the rows' JSON or the empty-result sentinel. -/
def findDelayedShipmentsDBBody (env : DBEnv) (s : AgentState) :
    Except PyErr String × AgentState :=
  match getDbConnection env s with
  | (Except.error e, s1) => (Except.error e, s1)
  | (Except.ok _, s1) =>
    match runRiskQuery env with
    | Except.error e => (Except.error e, s1)
    | Except.ok rows =>
      if rows.isEmpty then (Except.ok "No delayed shipments found", s1)
      else (Except.ok (jsonDumpRiskRows rows), s1)

/-- The database-backed `find_delayed_shipments` tool (lines 125-156):
the `try` body with its handler stringifying any exception. -/
def findDelayedShipmentsDB (env : DBEnv) (s : AgentState) :
    String × AgentState :=
  match findDelayedShipmentsDBBody env s with
  | (Except.ok out, s1) => (out, s1)
  | (Except.error e, s1) =>
    ("Error finding delayed shipments: " ++ e.msg, s1)

/-- Outcomes of the external world for the entrypoint: the lazy
model-plus-agent initialization (`_initialize_agent`, which on first
call reads the OpenAI secret and constructs the model and agent), and
one reasoning-loop run, which yields the final answer text extracted
from `result.message['content'][0]['text']`; any exception during
extraction is folded into the run's error outcome, since both sit
inside the same `try`. -/
structure AgentEnv where
  initAgent : Except PyErr Unit
  runAgent : String → Except PyErr String

/-- The fixed usage-hint string returned for an empty or missing query. -/
def usageHint : String :=
  "Please provide a query in the format: \x7b\"query\": \"your question here\"\x7d"

/-- `logistics_query` (`agent/agent.py` lines 226-246 and
`agent-mocked-tools/agent.py` lines 172-192; both bodies are
identical), instrumented with the list of external calls it makes so
that "without invoking the model or the agent" is statable.  The
payload is the parsed request dict restricted to its recognized
`query` field, read with `payload.get("query")`; `if not user_query`
is true exactly for a missing key or an empty string. -/
def logisticsQueryT (env : AgentEnv) (payload : PyDict) :
    String × List String :=
  match dictLookup payload "query" with
  | none => (usageHint, [])
  | some q =>
    if q = "" then (usageHint, [])
    else
      match env.initAgent with
      | Except.error e => ("Query failed: " ++ e.msg, ["init_agent"])
      | Except.ok _ =>
        match env.runAgent q with
        | Except.error e =>
          ("Query failed: " ++ e.msg, ["init_agent", "run_agent"])
        | Except.ok text => (text, ["init_agent", "run_agent"])

/-- The string actually returned to the transport by `logistics_query`. -/
def logistics_query (env : AgentEnv) (payload : PyDict) : String :=
  (logisticsQueryT env payload).1

/-- When the outer membership test succeeds, the outer subscript cannot
raise: `k in data` guards `data[k]`. -/
theorem outerGet_ok_of_mem (data : PyDirectory) (k : String)
    (h : outerMem data k = true) :
    ∃ sh, outerGet data k = Except.ok sh := by
  unfold outerMem at h
  unfold outerGet
  rcases hf : data.find? (fun p => p.1 == k) with _ | p
  · rw [hf] at h
    simp [Option.isSome] at h
  · rw [hf]
    exact ⟨p.2, rfl⟩

/-- Every record the mock scan keeps has status `AT_RISK`: the loop
appends only when `.get("status")` equals `"AT_RISK"`, and the appended
dict's `status` value is that same value. -/
theorem scanDelayedBody_status (data : PyDirectory)
    (entries : List PyDict)
    (h : scanDelayedBody data = Except.ok entries) :
    ∀ d ∈ entries, dictLookup d "status" = some "AT_RISK" := by
  induction data generalizing entries with
  | nil =>
    unfold scanDelayedBody at h
    cases h
    intro d hd
    cases hd
  | cons hd tl ih =>
    obtain ⟨ref, sh⟩ := hd
    unfold scanDelayedBody at h
    by_cases hs : dictLookup sh "status" = some "AT_RISK"
    · rw [if_pos hs] at h
      unfold buildDelayedEntry at h
      simp only [dictGet, hs] at h
      rcases h1 : dictLookup sh "current_location" with _ | loc <;>
        simp only [h1] at h
      · cases h
      rcases h2 : dictLookup sh "event" with _ | ev <;>
        simp only [h2] at h
      · cases h
      rcases h3 : dictLookup sh "occurred_at" with _ | occ <;>
        simp only [h3] at h
      · cases h
      rcases h4 : dictLookup sh "details" with _ | det <;>
        simp only [h4] at h
      · cases h
      rcases h5 : scanDelayedBody tl with e | tail <;>
        simp only [h5] at h
      · cases h
      cases h
      intro d hd
      rw [List.mem_cons] at hd
      rcases hd with rfl | hd
      · rfl
      · exact ih tail h5 d hd
    · rw [if_neg hs] at h
      exact ih entries h

/-- On the fixture, the mock scan keeps exactly the `SHIP-REF-1003`
projection. -/
theorem scanDelayedBody_fixture (t1 t2 t3 : String) :
    scanDelayedBody (MOCK_SHIPMENTS t1 t2 t3) =
      Except.ok [delayedEntry1003 t3] := rfl

/-- Whatever `find?` returns on the fixture has the queried key as its
key and a `reference_no` field equal to that key. -/
theorem mock_find_char (t1 t2 t3 ref : String) (p : String × PyDict)
    (hf : (MOCK_SHIPMENTS t1 t2 t3).find? (fun q => q.1 == ref) = some p) :
    p.1 = ref ∧ dictLookup p.2 "reference_no" = some p.1 := by
  have hpred := List.find?_some hf
  have hmem := List.mem_of_find?_eq_some hf
  have hkey : p.1 = ref := by simpa using hpred
  refine ⟨hkey, ?_⟩
  simp only [MOCK_SHIPMENTS, List.mem_cons, List.not_mem_nil, or_false]
    at hmem
  rcases hmem with rfl | rfl | rfl <;> rfl

/-- Claim C1: against the mock directory, `find_delayed_shipments`
returns exactly the fixture entries whose status is `AT_RISK` — the one
`SHIP-REF-1003` projection — and, for any directory contents, every
entry the scan keeps has status `AT_RISK`, so no entry with another
status can appear. -/
theorem c1_find_at_risk_exact (t1 t2 t3 : String) :
    scanDelayedBody (MOCK_SHIPMENTS t1 t2 t3) =
        Except.ok [delayedEntry1003 t3] ∧
    findDelayedShipmentsMock (MOCK_SHIPMENTS t1 t2 t3) =
        jsonDumpList [delayedEntry1003 t3] ∧
    (∀ (data : PyDirectory) (entries : List PyDict),
      scanDelayedBody data = Except.ok entries →
      ∀ d ∈ entries, dictLookup d "status" = some "AT_RISK") := by
  refine ⟨scanDelayedBody_fixture t1 t2 t3, ?_, ?_⟩
  · unfold findDelayedShipmentsMock
    rw [scanDelayedBody_fixture]
    rfl
  · intro data entries h
    exact scanDelayedBody_status data entries h

/-- Witness for C1 at a concrete timestamp: the kept record of the
concrete fixture scan indeed carries status `AT_RISK`. -/
theorem c1_witness :
    dictLookup (delayedEntry1003 "2026-01-01T00:00:00") "status" =
      some "AT_RISK" :=
  (c1_find_at_risk_exact "ta" "tb" "2026-01-01T00:00:00").2.2
    (MOCK_SHIPMENTS "ta" "tb" "2026-01-01T00:00:00")
    [delayedEntry1003 "2026-01-01T00:00:00"] rfl
    (delayedEntry1003 "2026-01-01T00:00:00") (List.mem_singleton.mpr rfl)

/-- Claim C3: whenever the queried reference identifier is present, the
record handed back has a reference field equal to the query key — in
the mock variant the found fixture record's `reference_no` is the key,
and in the database-backed variant the row returned by the
`WHERE s.reference_no = :reference_no` query carries exactly the
queried identifier. -/
theorem c3_get_status_matches_key (t1 t2 t3 ref : String)
    (p : String × PyDict)
    (hf : (MOCK_SHIPMENTS t1 t2 t3).find? (fun q => q.1 == ref) = some p) :
    dictLookup p.2 "reference_no" = some ref ∧
    getShipmentStatusMock (MOCK_SHIPMENTS t1 t2 t3) ref = jsonDumpDict p.2 ∧
    (∀ (env : DBEnv) (s : AgentState) (c : Nat) (r : ShipmentRow)
        (rest : List ShipmentRow),
      s.db_connection = some c → env.queryFault = none →
      env.shipments.filter (fun w => w.reference_no == ref) = r :: rest →
      r.reference_no = ref ∧
      getShipmentStatusDB env s ref = (jsonDumpShipmentRow r, s)) := by
  obtain ⟨hkey, hreffield⟩ := mock_find_char t1 t2 t3 ref p hf
  refine ⟨by rw [hreffield, hkey], ?_, ?_⟩
  · unfold getShipmentStatusMock getShipmentStatusMockBody outerMem outerGet
    rw [hf]
    rfl
  · intro env s c r rest hconn hq hfil
    have hrmem : r ∈ env.shipments.filter (fun w => w.reference_no == ref) :=
      hfil ▸ List.mem_cons_self r rest
    have hrkey : r.reference_no = ref := by
      have := (List.mem_filter.mp hrmem).2
      simpa using this
    refine ⟨hrkey, ?_⟩
    unfold getShipmentStatusDB getShipmentStatusDBBody getDbConnection
    rw [hconn]
    unfold runStatusQuery
    rw [hq, hfil]

/-- Witness for C3: looking up `SHIP-REF-1002` in the fixture at
concrete timestamps yields the record whose `reference_no` is
`SHIP-REF-1002`. -/
theorem c3_witness :
    dictLookup
      [ ("reference_no", "SHIP-REF-1002"),
        ("status", "DELIVERED"),
        ("event", "DELIVERED"),
        ("current_location", "Shanghai Distribution Center"),
        ("unlocode", "CNSHA"),
        ("occurred_at", "ty"),
        ("details", "Delivered to consignee") ] "reference_no" =
      some "SHIP-REF-1002" :=
  (c3_get_status_matches_key "tx" "ty" "tz" "SHIP-REF-1002"
    ("SHIP-REF-1002",
      [ ("reference_no", "SHIP-REF-1002"),
        ("status", "DELIVERED"),
        ("event", "DELIVERED"),
        ("current_location", "Shanghai Distribution Center"),
        ("unlocode", "CNSHA"),
        ("occurred_at", "ty"),
        ("details", "Delivered to consignee") ]) rfl).1

/-- Claim C4: for a reference identifier absent from the directory, both
variants return the explicit `Shipment <ref> not found` string; the mock
body completes without an exception, and the database-backed variant
returns the string (not a fault) whenever the store answers the query
with zero rows. -/
theorem c4_get_status_not_found (data : PyDirectory) (ref : String)
    (hm : outerMem data ref = false) :
    getShipmentStatusMockBody data ref =
        Except.ok ("Shipment " ++ ref ++ " not found") ∧
    getShipmentStatusMock data ref = "Shipment " ++ ref ++ " not found" ∧
    (∀ (env : DBEnv) (s : AgentState) (c : Nat),
      s.db_connection = some c → env.queryFault = none →
      env.shipments.filter (fun w => w.reference_no == ref) = [] →
      getShipmentStatusDB env s ref =
        ("Shipment " ++ ref ++ " not found", s)) := by
  have hbody : getShipmentStatusMockBody data ref =
      Except.ok ("Shipment " ++ ref ++ " not found") := by
    unfold getShipmentStatusMockBody
    rw [hm]
    rfl
  refine ⟨hbody, ?_, ?_⟩
  · unfold getShipmentStatusMock
    rw [hbody]
  · intro env s c hconn hq hfil
    unfold getShipmentStatusDB getShipmentStatusDBBody getDbConnection
    rw [hconn]
    unfold runStatusQuery
    rw [hq, hfil]

/-- Witness for C4: the unknown reference `SHIP-REF-9999` yields the
not-found string on the concrete fixture. -/
theorem c4_witness :
    getShipmentStatusMock (MOCK_SHIPMENTS "ta" "tb" "tc") "SHIP-REF-9999" =
      "Shipment " ++ "SHIP-REF-9999" ++ " not found" :=
  (c4_get_status_not_found (MOCK_SHIPMENTS "ta" "tb" "tc")
    "SHIP-REF-9999" rfl).2.1

/-- Claim C5: in the database-backed variant, every exception the body
of `get_shipment_status` raises is converted by the handler into the
string `Error retrieving shipment status: <message>`; the operation
returns that string rather than letting the fault escape. -/
theorem c5_db_fault_to_error_string (env : DBEnv) (s : AgentState)
    (ref : String) (e : PyErr)
    (h : (getShipmentStatusDBBody env s ref).1 = Except.error e) :
    (getShipmentStatusDB env s ref).1 =
      "Error retrieving shipment status: " ++ e.msg := by
  unfold getShipmentStatusDB
  rcases hb : getShipmentStatusDBBody env s ref with ⟨out, s1⟩
  rw [hb] at h
  simp only at h
  subst h
  rfl

/-- A concrete environment whose query execution faults: configuration
and connection succeed, but `conn.run` raises. -/
def envQueryFault : DBEnv :=
  { ssmParams :=
      Except.ok ⟨"db.example.internal", "logistics", "arn:aws:secret:1"⟩,
    secret := Except.ok ⟨"app", "pw"⟩,
    connect := Except.ok 1,
    queryFault := some ⟨"InterfaceError", "network error"⟩,
    shipments := [],
    risk := [] }

/-- A state holding an already-established cached connection. -/
def stateWithConn : AgentState := ⟨none, none, some 7⟩

/-- Witness for C5: with a cached connection and a faulting query, the
operation returns the error string built from the fault's message. -/
theorem c5_witness :
    (getShipmentStatusDB envQueryFault stateWithConn "SHIP-REF-1001").1 =
      "Error retrieving shipment status: " ++ "network error" :=
  c5_db_fault_to_error_string envQueryFault stateWithConn "SHIP-REF-1001"
    ⟨"InterfaceError", "network error"⟩ rfl

/-- Claim C9: when the query on an already-established cached connection
faults, `get_shipment_status` returns the error string with the module
state untouched — the cached handle is not evicted — and every
subsequent `get_db_connection`, whatever the world then does, hands back
the very same handle. -/
theorem c9_connection_not_evicted (env : DBEnv) (s : AgentState)
    (c : Nat) (e : PyErr) (ref : String)
    (hconn : s.db_connection = some c) (hq : env.queryFault = some e) :
    getShipmentStatusDB env s ref =
      ("Error retrieving shipment status: " ++ e.msg, s) ∧
    (getShipmentStatusDB env s ref).2.db_connection = some c ∧
    (∀ env2 : DBEnv,
      getDbConnection env2 (getShipmentStatusDB env s ref).2 =
        (Except.ok c, (getShipmentStatusDB env s ref).2)) := by
  have hmain : getShipmentStatusDB env s ref =
      ("Error retrieving shipment status: " ++ e.msg, s) := by
    unfold getShipmentStatusDB getShipmentStatusDBBody getDbConnection
    rw [hconn]
    unfold runStatusQuery
    rw [hq]
  refine ⟨hmain, ?_, ?_⟩
  · rw [hmain]
    exact hconn
  · intro env2
    rw [hmain]
    unfold getDbConnection
    rw [hconn]

/-- Witness for C9: on the concrete faulting environment the state after
the failed operation still holds connection handle `7`. -/
theorem c9_witness :
    (getShipmentStatusDB envQueryFault stateWithConn "SHIP-REF-1001").2.db_connection =
      some 7 :=
  (c9_connection_not_evicted envQueryFault stateWithConn 7
    ⟨"InterfaceError", "network error"⟩ "SHIP-REF-1001" rfl rfl).2.1

/-- Claim C10: on the fixture, for every queried reference string, the
bodies of the two mock tools complete without raising — the lookup is
guarded by the membership test and every field subscript the loop takes
is present — so the `except` branches are dead and the tools return the
body's result, never an error string. -/
theorem c10_mock_tools_never_fault (t1 t2 t3 ref : String) :
    (∃ out, getShipmentStatusMockBody (MOCK_SHIPMENTS t1 t2 t3) ref =
        Except.ok out ∧
      getShipmentStatusMock (MOCK_SHIPMENTS t1 t2 t3) ref = out) ∧
    (∃ entries, scanDelayedBody (MOCK_SHIPMENTS t1 t2 t3) =
        Except.ok entries ∧
      findDelayedShipmentsMock (MOCK_SHIPMENTS t1 t2 t3) =
        jsonDumpList entries) := by
  constructor
  · by_cases hm : outerMem (MOCK_SHIPMENTS t1 t2 t3) ref
    · obtain ⟨sh, hsh⟩ := outerGet_ok_of_mem _ _ hm
      refine ⟨jsonDumpDict sh, ?_, ?_⟩
      · unfold getShipmentStatusMockBody
        rw [if_pos hm, hsh]
      · unfold getShipmentStatusMock getShipmentStatusMockBody
        rw [if_pos hm, hsh]
    · rw [Bool.not_eq_true] at hm
      refine ⟨"Shipment " ++ ref ++ " not found", ?_, ?_⟩
      · unfold getShipmentStatusMockBody
        rw [hm]
        rfl
      · unfold getShipmentStatusMock getShipmentStatusMockBody
        rw [hm]
        rfl
  · exact ⟨[delayedEntry1003 t3], scanDelayedBody_fixture t1 t2 t3, rfl⟩

/-- Claim C2: the database-backed risk query's row sequence is ordered
by ETA descending with NULL ETAs last (the meaning of
`ORDER BY r.eta DESC NULLS LAST`), its content is exactly the `AT_RISK`
filter of the backing view, and both variants return the
`No delayed shipments found` sentinel — not a fault — when no entries
qualify.  The mock variant's entries carry no ETA field at all, so the
ordering requirement is vacuous there. -/
theorem c2_find_at_risk_ordered (env : DBEnv) (s : AgentState)
    (c : Nat) (t1 t2 t3 : String)
    (hconn : s.db_connection = some c) (hq : env.queryFault = none) :
    List.Sorted riskOrder (riskQueryRows env) ∧
    List.Perm (riskQueryRows env)
      (env.risk.filter (fun r => r.eta_status == "AT_RISK")) ∧
    (riskQueryRows env = [] →
      findDelayedShipmentsDB env s = ("No delayed shipments found", s)) ∧
    (riskQueryRows env ≠ [] →
      findDelayedShipmentsDB env s =
        (jsonDumpRiskRows (riskQueryRows env), s)) ∧
    (∀ data : PyDirectory, scanDelayedBody data = Except.ok [] →
      findDelayedShipmentsMock data = "No delayed shipments found") ∧
    (∀ entries, scanDelayedBody (MOCK_SHIPMENTS t1 t2 t3) =
        Except.ok entries → ∀ d ∈ entries, dictLookup d "eta" = none) := by
  refine ⟨List.sorted_insertionSort riskOrder _,
    List.perm_insertionSort riskOrder _, ?_, ?_, ?_, ?_⟩
  · intro hnil
    unfold findDelayedShipmentsDB findDelayedShipmentsDBBody
      getDbConnection
    rw [hconn]
    unfold runRiskQuery
    rw [hq, hnil]
    rfl
  · intro hne
    unfold findDelayedShipmentsDB findDelayedShipmentsDBBody
      getDbConnection
    rw [hconn]
    unfold runRiskQuery
    rw [hq]
    simp only [List.isEmpty_eq_false_iff_exists_mem]
    rcases hr : riskQueryRows env with _ | ⟨r, rest⟩
    · exact absurd hr hne
    · simp
  · intro data hnil
    unfold findDelayedShipmentsMock
    rw [hnil]
    rfl
  · intro entries h d hd
    rw [scanDelayedBody_fixture] at h
    cases h
    rw [List.mem_singleton] at hd
    subst hd
    rfl

/-- A concrete risk view exercising the sort: one NULL-ETA row and two
dated rows, listed unsorted. -/
def envRiskSample : DBEnv :=
  { ssmParams :=
      Except.ok ⟨"db.example.internal", "logistics", "arn:aws:secret:1"⟩,
    secret := Except.ok ⟨"app", "pw"⟩,
    connect := Except.ok 1,
    queryFault := none,
    shipments := [],
    risk :=
      [ ⟨"ACME-REF-2001", none, none, "AT_RISK"⟩,
        ⟨"ACME-REF-2002", some 100, some 120, "AT_RISK"⟩,
        ⟨"ACME-REF-2003", some 300, none, "AT_RISK"⟩,
        ⟨"ACME-REF-2004", some 999, some 999, "ON_TIME"⟩ ] }

/-- Witness for C2: the concrete sample's query rows come out sorted by
descending ETA with the NULL row last. -/
theorem c2_witness :
    List.Sorted riskOrder (riskQueryRows envRiskSample) :=
  (c2_find_at_risk_ordered envRiskSample stateWithConn 7
    "ta" "tb" "tc" rfl rfl).1

/-- Claim C6: `logistics_query` converts every fault raised inside its
`try` block — agent initialization or agent execution — into the string
`Query failed: <message>`, and hands back the reasoning loop's text on
success; by type it returns a string to the transport in every case. -/
theorem c6_entrypoint_catches_all (env : AgentEnv) (payload : PyDict)
    (q : String)
    (hq : dictLookup payload "query" = some q) (hne : q ≠ "") :
    (∀ e, env.initAgent = Except.error e →
      logistics_query env payload = "Query failed: " ++ e.msg) ∧
    (∀ e, env.initAgent = Except.ok () → env.runAgent q = Except.error e →
      logistics_query env payload = "Query failed: " ++ e.msg) ∧
    (∀ t, env.initAgent = Except.ok () → env.runAgent q = Except.ok t →
      logistics_query env payload = t) := by
  refine ⟨?_, ?_, ?_⟩
  · intro e he
    unfold logistics_query logisticsQueryT
    rw [hq]
    simp only [if_neg hne, he]
  · intro e hi hr
    unfold logistics_query logisticsQueryT
    rw [hq]
    simp only [if_neg hne, hi, hr]
  · intro t hi hr
    unfold logistics_query logisticsQueryT
    rw [hq]
    simp only [if_neg hne, hi, hr]

/-- An entrypoint world whose reasoning loop faults at execution. -/
def envAgentFault : AgentEnv :=
  { initAgent := Except.ok (),
    runAgent := fun _ => Except.error ⟨"RuntimeError", "model overloaded"⟩ }

/-- Witness for C6: a run-time agent fault surfaces as the
`Query failed:` string. -/
theorem c6_witness :
    logistics_query envAgentFault [("query", "What is at risk?")] =
      "Query failed: " ++ "model overloaded" :=
  (c6_entrypoint_catches_all envAgentFault [("query", "What is at risk?")]
    "What is at risk?" rfl (by decide)).2.1
    ⟨"RuntimeError", "model overloaded"⟩ rfl rfl

/-- Claim C8: an empty or missing `query` field makes the entrypoint
return the fixed usage-hint string with an empty external-call trace:
neither agent initialization (hence no model construction) nor the
reasoning loop (hence neither directory tool) is invoked. -/
theorem c8_empty_query_usage_hint (env : AgentEnv) (payload : PyDict) :
    (dictLookup payload "query" = none →
      logisticsQueryT env payload = (usageHint, [])) ∧
    (dictLookup payload "query" = some "" →
      logisticsQueryT env payload = (usageHint, [])) := by
  constructor
  · intro h
    unfold logisticsQueryT
    rw [h]
  · intro h
    unfold logisticsQueryT
    rw [h]
    rfl

/-- Witness for C8: the empty payload and the empty-string payload both
yield the usage hint without any external call, even in a world whose
agent would fault. -/
theorem c8_witness :
    logisticsQueryT envAgentFault [] = (usageHint, []) ∧
    logisticsQueryT envAgentFault [("query", "")] = (usageHint, []) :=
  ⟨(c8_empty_query_usage_hint envAgentFault []).1 rfl,
   (c8_empty_query_usage_hint envAgentFault [("query", "")]).2 rfl⟩

/-- A concrete world where the SSM parameter load succeeds but the
Secrets Manager read fails. -/
def envSecretFail : DBEnv :=
  { ssmParams :=
      Except.ok ⟨"db.example.internal", "logistics", "arn:aws:secret:1"⟩,
    secret := Except.error ⟨"ClientError", "secret retrieval failed"⟩,
    connect := Except.ok 1,
    queryFault := none,
    shipments := [],
    risk := [] }

/-- Counterexample to claim C7: when the secret read fails after a
successful parameter read, the configuration load raises, yet the
cached state is NOT left as if no load had happened — `_db_config`
stays populated. -/
theorem c7_counterexample :
    (loadDbConfig envSecretFail initState).1 =
        Except.error ⟨"ClientError", "secret retrieval failed"⟩ ∧
    (loadDbConfig envSecretFail initState).2 ≠ initState ∧
    (loadDbConfig envSecretFail initState).2.db_config ≠ none := by
  refine ⟨rfl, ?_, ?_⟩ <;> decide

/-- Claim C7 as amended: if the parameter-store read itself fails the
cached state is untouched and the next invocation retries everything;
but if the secret read fails after a successful parameter read, the
parameter configuration remains cached and no later invocation retries
either read — it is handed the cached configuration with `None`
credentials; only on the fully successful path are both configuration
and credentials cached. -/
theorem c7_partial_config_cache (env : DBEnv) :
    (∀ e, env.ssmParams = Except.error e →
      loadDbConfig env initState = (Except.error e, initState)) ∧
    (∀ cfg e, env.ssmParams = Except.ok cfg →
      env.secret = Except.error e →
      loadDbConfig env initState = (Except.error e, ⟨some cfg, none, none⟩) ∧
      ∀ env2 : DBEnv, loadDbConfig env2 ⟨some cfg, none, none⟩ =
        (Except.ok (cfg, none), ⟨some cfg, none, none⟩)) ∧
    (∀ cfg creds, env.ssmParams = Except.ok cfg →
      env.secret = Except.ok creds →
      loadDbConfig env initState =
        (Except.ok (cfg, some creds), ⟨some cfg, some creds, none⟩)) := by
  refine ⟨?_, ?_, ?_⟩
  · intro e he
    unfold loadDbConfig initState
    rw [he]
  · intro cfg e hssm hsec
    constructor
    · unfold loadDbConfig initState
      rw [hssm, hsec]
    · intro env2
      unfold loadDbConfig
      rfl
  · intro cfg creds hssm hsec
    unfold loadDbConfig initState
    rw [hssm, hsec]

/-- Witness for the amended C7 on the concrete failing world: the
partially cached state persists and the next load hands back the cached
configuration with no credentials, consulting no store. -/
theorem c7_witness :
    loadDbConfig envSecretFail initState =
      (Except.error ⟨"ClientError", "secret retrieval failed"⟩,
       ⟨some ⟨"db.example.internal", "logistics", "arn:aws:secret:1"⟩,
        none, none⟩) ∧
    loadDbConfig envQueryFault
        ⟨some ⟨"db.example.internal", "logistics", "arn:aws:secret:1"⟩,
         none, none⟩ =
      (Except.ok
        (⟨"db.example.internal", "logistics", "arn:aws:secret:1"⟩, none),
       ⟨some ⟨"db.example.internal", "logistics", "arn:aws:secret:1"⟩,
        none, none⟩) :=
  ⟨((c7_partial_config_cache envSecretFail).2.1
      ⟨"db.example.internal", "logistics", "arn:aws:secret:1"⟩
      ⟨"ClientError", "secret retrieval failed"⟩ rfl rfl).1,
   ((c7_partial_config_cache envSecretFail).2.1
      ⟨"db.example.internal", "logistics", "arn:aws:secret:1"⟩
      ⟨"ClientError", "secret retrieval failed"⟩ rfl rfl).2 envQueryFault⟩
